import Mathlib

/-!
Verification of the authoritative Pong game server
(`src/server/src/server.ts`) against its natural-language specification.

The numeric model uses exact rationals (ℚ) for positions and velocities.
All constants of the program (arena 800×600, paddle 10×100, ball radius 10,
serve speed 5, paddle step 15, bounce factor 0.30, vertical speed cap 7,
winning score 5) are exactly representable, and every claim under
consideration concerns outcomes (clamped speeds, snapped positions,
integer scores) that are insensitive to the difference between rational
and IEEE double arithmetic.

Randomness (`Math.random()`) is modelled by explicit parameters: a draw
in `[0,1)` for magnitudes and a boolean for each `Math.random() > 0.5`
sign coin.

The server's recurring `setInterval` timer is modelled by an explicit
timer world: a counter handing out fresh handles and the list of handles
currently active, so that "at most one tick driver" is a provable
statement rather than a structural accident.
-/

namespace Pong

/-! ## Game constants (server.ts lines 16-28) -/

def GAME_AREA_WIDTH : ℚ := 800
def GAME_AREA_HEIGHT : ℚ := 600
def PADDLE_WIDTH : ℚ := 10
def PADDLE_HEIGHT : ℚ := 100
def PADDLE_OFFSET_X : ℚ := 50
def BALL_RADIUS : ℚ := 10
def INITIAL_BALL_SPEED : ℚ := 5
def PADDLE_SPEED : ℚ := 15
def WINNING_SCORE : ℕ := 5
def MAX_BALL_SPEED_Y : ℚ := 7
def PADDLE_BOUNCE_ANGLE_FACTOR : ℚ := 3 / 10

/-! ## Game state types (server.ts lines 30-48) -/

structure PaddleState where
  x : ℚ
  y : ℚ
  width : ℚ
  height : ℚ
  deriving DecidableEq, Repr

structure BallState where
  x : ℚ
  y : ℚ
  radius : ℚ
  speedX : ℚ
  speedY : ℚ
  deriving DecidableEq, Repr

structure Score where
  player1 : ℕ
  player2 : ℕ
  deriving DecidableEq, Repr

structure GameArea where
  width : ℚ
  height : ℚ
  deriving DecidableEq, Repr

inductive Status where
  | waiting
  | playing
  | paused
  | gameOver
  deriving DecidableEq, Repr

structure GameState where
  player1Paddle : PaddleState
  player2Paddle : PaddleState
  ball : BallState
  score : Score
  gameArea : GameArea
  status : Status
  deriving DecidableEq, Repr

/-- A participant seated in a room: socket id and seat number (1 or 2). -/
structure Player where
  id : String
  playerNumber : ℕ
  deriving DecidableEq, Repr

/-- `Math.sign` of JavaScript on a rational. -/
def signQ (q : ℚ) : ℚ :=
  if 0 < q then 1 else if q < 0 then -1 else 0

/-- Sign coin for `Math.random() > 0.5`: `true ↦ 1`, `false ↦ -1`. -/
def coin (b : Bool) : ℚ := if b then 1 else -1

/-- The two random draws consumed by `resetBall`
(`Math.random()` magnitude draw, then the sign coin). -/
structure SRand where
  mag : ℚ
  pos : Bool
  deriving DecidableEq, Repr

/-- The two sign coins consumed by `initializeGameState`
(one for the initial `speedX`, one for the initial `speedY`). -/
structure IRand where
  sx : Bool
  sy : Bool
  deriving DecidableEq, Repr

/-! ## Pure game-state helpers (server.ts lines 56-72) -/

/-- `initializeGameState` (server.ts lines 56-65). -/
def initializeGameState (r : IRand) : GameState :=
  { player1Paddle := { x := PADDLE_OFFSET_X, y := GAME_AREA_HEIGHT / 2 - PADDLE_HEIGHT / 2,
                       width := PADDLE_WIDTH, height := PADDLE_HEIGHT }
    player2Paddle := { x := GAME_AREA_WIDTH - PADDLE_OFFSET_X - PADDLE_WIDTH,
                       y := GAME_AREA_HEIGHT / 2 - PADDLE_HEIGHT / 2,
                       width := PADDLE_WIDTH, height := PADDLE_HEIGHT }
    ball := { x := GAME_AREA_WIDTH / 2, y := GAME_AREA_HEIGHT / 2, radius := BALL_RADIUS,
              speedX := coin r.sx * INITIAL_BALL_SPEED,
              speedY := coin r.sy * INITIAL_BALL_SPEED }
    score := { player1 := 0, player2 := 0 }
    gameArea := { width := GAME_AREA_WIDTH, height := GAME_AREA_HEIGHT }
    status := Status.playing }

/-- `resetBall` (server.ts lines 67-72): recenter the ball and re-serve it
toward the paddle of `lastScorer`, with a randomized vertical component. -/
def resetBall (gs : GameState) (lastScorer : ℕ) (r : SRand) : GameState :=
  { gs with ball :=
    { gs.ball with
      x := GAME_AREA_WIDTH / 2
      y := GAME_AREA_HEIGHT / 2
      speedX := if lastScorer = 1 then -INITIAL_BALL_SPEED else INITIAL_BALL_SPEED
      speedY := (r.mag * INITIAL_BALL_SPEED * (6 / 10) + INITIAL_BALL_SPEED * (2 / 10)) * coin r.pos } }

/-! ## The tick pipeline (server.ts lines 83-114), decomposed step by step -/

/-- Step 1 of a tick: `ball.x += speedX; ball.y += speedY` (lines 83-84). -/
def integrateBall (gs : GameState) : GameState :=
  { gs with ball := { gs.ball with x := gs.ball.x + gs.ball.speedX, y := gs.ball.y + gs.ball.speedY } }

/-- The seat-1 paddle collision condition (line 87). -/
def collideP1Guard (gs : GameState) : Bool :=
  let b := gs.ball
  let p := gs.player1Paddle
  decide (b.x - b.radius < p.x + p.width) && decide (p.x < b.x + b.radius) &&
  decide (b.y - b.radius < p.y + p.height) && decide (p.y < b.y + b.radius) &&
  decide (b.speedX < 0)

/-- Step 2 of a tick: seat-1 paddle collision response (lines 87-93).
Reflect `speedX`, set `speedY` from the impact offset scaled by the bounce
factor, clamp `|speedY|` to the cap, and snap `ball.x` to the paddle's
right edge plus the radius. -/
def collideP1 (gs : GameState) : GameState :=
  if collideP1Guard gs then
    let b := gs.ball
    let p := gs.player1Paddle
    let deltaY := b.y - (p.y + p.height / 2)
    let sy0 := deltaY * PADDLE_BOUNCE_ANGLE_FACTOR
    let sy := if MAX_BALL_SPEED_Y < |sy0| then MAX_BALL_SPEED_Y * signQ sy0 else sy0
    { gs with ball := { b with speedX := b.speedX * (-1), speedY := sy, x := p.x + p.width + b.radius } }
  else gs

/-- The seat-2 paddle collision condition (line 96). -/
def collideP2Guard (gs : GameState) : Bool :=
  let b := gs.ball
  let p := gs.player2Paddle
  decide (p.x < b.x + b.radius) && decide (b.x - b.radius < p.x + p.width) &&
  decide (b.y - b.radius < p.y + p.height) && decide (p.y < b.y + b.radius) &&
  decide (0 < b.speedX)

/-- Step 3 of a tick: seat-2 paddle collision response (lines 96-102). -/
def collideP2 (gs : GameState) : GameState :=
  if collideP2Guard gs then
    let b := gs.ball
    let p := gs.player2Paddle
    let deltaY := b.y - (p.y + p.height / 2)
    let sy0 := deltaY * PADDLE_BOUNCE_ANGLE_FACTOR
    let sy := if MAX_BALL_SPEED_Y < |sy0| then MAX_BALL_SPEED_Y * signQ sy0 else sy0
    { gs with ball := { b with speedX := b.speedX * (-1), speedY := sy, x := p.x - b.radius } }
  else gs

/-- Step 4 of a tick: wall bounce off the top/bottom edges (lines 105-109). -/
def wallBounce (gs : GameState) : GameState :=
  let b := gs.ball
  if b.y - b.radius < 0 ∨ gs.gameArea.height < b.y + b.radius then
    let b1 := { b with speedY := b.speedY * (-1) }
    let b2 := if b1.y - b1.radius < 0 then { b1 with y := b1.radius } else b1
    let b3 := if gs.gameArea.height < b2.y + b2.radius then { b2 with y := gs.gameArea.height - b2.radius } else b2
    { gs with ball := b3 }
  else gs

/-- Step 5 of a tick: scoring (lines 112-114). Returns the updated state
and the `justScored` flag. -/
def scoringStep (gs : GameState) (r : SRand) : GameState × Bool :=
  if gs.ball.x + gs.ball.radius < 0 then
    (resetBall { gs with score := { gs.score with player2 := gs.score.player2 + 1 } } 2 r, true)
  else if gs.gameArea.width < gs.ball.x - gs.ball.radius then
    (resetBall { gs with score := { gs.score with player1 := gs.score.player1 + 1 } } 1 r, true)
  else (gs, false)

/-- The physics portion of one tick: integrate, both paddle collisions,
wall bounce, scoring. -/
def tickPhysics (gs : GameState) (r : SRand) : GameState × Bool :=
  scoringStep (wallBounce (collideP2 (collideP1 (integrateBall gs)))) r

/-! ## Session layer (server.ts lines 42-51, 74-144, 150-282)

A `GameRoom` mirrors the `GameRoom` interface: its players, its optional
`GameState`, its optional interval handle, and the play-again request set
(modelled as a duplicate-free list of ids). A `SessionS` wraps the room
together with the timer world (set of currently active interval handles
and the next fresh handle) and a `closed` flag standing for the room
having been removed from `activeRooms`. Event routing by socket id stands
in for the per-connection closures: only ids of currently seated
participants can emit events into the room, which is what the transport
guarantees for the real server. -/

structure GameRoom where
  players : List Player
  gameState : Option GameState
  gameLoopIntervalId : Option ℕ
  playAgainRequests : List String
  deriving DecidableEq, Repr

structure SessionS where
  room : GameRoom
  activeTimers : List ℕ
  nextTimer : ℕ
  closed : Bool
  deriving DecidableEq, Repr

inductive Dir where
  | up
  | down
  deriving DecidableEq, Repr

inductive ServerEvent where
  | playerAssignment (playerNumber : ℕ)
  | waitingForOpponent
  | gameStart (gs : GameState)
  | gameStateUpdate (gs : GameState)
  | gameOverEv (winner : ℕ) (score : Score)
  | opponentDisconnected (txt : String)
  | message (txt : String)
  deriving DecidableEq, Repr

def findPlayer (ps : List Player) (sid : String) : Option Player :=
  ps.find? (fun p => p.id = sid)

/-- `clearInterval` on an optional handle: removes it from the set of
active timers (a `none` handle clears nothing). -/
def clearTimer (ts : List ℕ) : Option ℕ → List ℕ
  | none => ts
  | some h => ts.filter (fun t => t ≠ h)

/-- The sort of `room.players` by `playerNumber` (lines 133 and 169).
Rooms never hold more than two players, so only the two-element case can
reorder anything. -/
def sortPlayers : List Player → List Player
  | [a, b] => if a.playerNumber ≤ b.playerNumber then [a, b] else [b, a]
  | l => l

/-- `startGame` (server.ts lines 131-144): requires exactly two players,
installs a fresh `GameState`, clears the rematch requests, emits
`gameStart`, cancels any pre-existing tick driver and installs a new one. -/
def startGame (s : SessionS) (ir : IRand) : SessionS × List ServerEvent :=
  if s.room.players.length ≠ 2 then (s, [])
  else
    let ps := sortPlayers s.room.players
    let gs := { initializeGameState ir with status := Status.playing }
    let h := s.nextTimer
    ({ room := { players := ps, gameState := some gs, gameLoopIntervalId := some h,
                 playAgainRequests := [] }
       activeTimers := h :: clearTimer s.activeTimers s.room.gameLoopIntervalId
       nextTimer := h + 1
       closed := s.closed },
     [ServerEvent.gameStart gs])

/-- `updateGame` (server.ts lines 74-129): one tick of the driver. Runs the
physics pipeline, then the win check; on game over it flips the status,
announces the winner, cancels the tick driver and emits a final snapshot,
ending the tick there. -/
def updateGame (s : SessionS) (r : SRand) : SessionS × List ServerEvent :=
  match s.room.gameState with
  | none => (s, [])
  | some gs =>
    if gs.status ≠ Status.playing ∧ gs.status ≠ Status.paused then (s, [])
    else if gs.status = Status.paused then (s, [ServerEvent.gameStateUpdate gs])
    else
      let p := tickPhysics gs r
      let gs5 := p.1
      let justScored := p.2
      if gs5.status = Status.playing ∧
          (WINNING_SCORE ≤ gs5.score.player1 ∨ WINNING_SCORE ≤ gs5.score.player2) then
        let winner : ℕ := if WINNING_SCORE ≤ gs5.score.player1 then 1 else 2
        let gs6 := { gs5 with status := Status.gameOver }
        ({ s with
            room := { s.room with gameState := some gs6, gameLoopIntervalId := none }
            activeTimers := clearTimer s.activeTimers s.room.gameLoopIntervalId },
         [ServerEvent.gameOverEv winner gs6.score, ServerEvent.gameStateUpdate gs6])
      else
        ({ s with room := { s.room with gameState := some gs5 } },
         if gs5.status = Status.playing ∨ justScored then
           [ServerEvent.gameStateUpdate gs5]
         else [])

/-- The `paddleMove` handler (server.ts lines 236-245): only while the room
exists with a `playing` game state; moves the requester's own paddle by
the fixed step and clamps it into the arena. -/
def paddleMoveHandler (s : SessionS) (sid : String) (d : Dir) : SessionS :=
  if s.closed then s
  else
    match findPlayer s.room.players sid with
    | none => s
    | some pl =>
      match s.room.gameState with
      | none => s
      | some gs =>
        if gs.status = Status.playing then
          let pad := if pl.playerNumber = 1 then gs.player1Paddle else gs.player2Paddle
          let y1 := match d with
            | Dir.up => pad.y - PADDLE_SPEED
            | Dir.down => pad.y + PADDLE_SPEED
          let pad' := { pad with y := max 0 (min y1 (GAME_AREA_HEIGHT - pad.height)) }
          let gs' := if pl.playerNumber = 1 then { gs with player1Paddle := pad' }
                     else { gs with player2Paddle := pad' }
          { s with room := { s.room with gameState := some gs' } }
        else s

/-- The `requestPlayAgain` handler (server.ts lines 209-234). -/
def requestPlayAgainHandler (s : SessionS) (sid : String) (ir : IRand) : SessionS × List ServerEvent :=
  if s.closed then (s, [])
  else
    match findPlayer s.room.players sid with
    | none => (s, [])
    | some pl =>
      if s.room.players.length ≠ 2 ∨ s.room.gameState = none ∨
          (s.room.gameState.map Pong.GameState.status ≠ some Status.gameOver) then
        (s, [ServerEvent.message "Cannot request play again now."])
      else
        match s.room.gameState with
        | none => (s, [ServerEvent.message "Cannot request play again now."])
        | some gs =>
          if ¬ (WINNING_SCORE ≤ gs.score.player1 ∨ WINNING_SCORE ≤ gs.score.player2) then
            (s, [ServerEvent.message "Game did not end by score. Cannot play again."])
          else
            let reqs := s.room.playAgainRequests.insert sid
            let s1 := { s with room := { s.room with playAgainRequests := reqs } }
            let notify := (s.room.players.filter (fun p => p.id ≠ sid)).map
              (fun _ => ServerEvent.message ("Player " ++ toString pl.playerNumber ++ " wants to play again!"))
            if reqs.length = 2 then
              let r := startGame s1 ir
              (r.1, notify ++ r.2)
            else
              (s1, notify ++ [ServerEvent.message "Request sent. Waiting for opponent..."])

/-- The `disconnect` handler (server.ts lines 247-282). -/
def disconnectHandler (s : SessionS) (sid : String) : SessionS × List ServerEvent :=
  if s.closed then (s, [])
  else
    match findPlayer s.room.players sid with
    | none => (s, [])
    | some _ =>
      let reqs1 := s.room.playAgainRequests.filter (fun i => i ≠ sid)
      let players1 := s.room.players.filter (fun p => p.id ≠ sid)
      -- lines 258-263: cancel the driver and end the game when fewer than
      -- two players remain while a driver is installed
      let dropTimer := s.room.gameLoopIntervalId.isSome ∧ players1.length < 2
      let timers1 := if dropTimer then clearTimer s.activeTimers s.room.gameLoopIntervalId
                     else s.activeTimers
      let intv1 := if dropTimer then none else s.room.gameLoopIntervalId
      let gs1 := if dropTimer then s.room.gameState.map (fun g => { g with status := Status.gameOver })
                 else s.room.gameState
      if players1.length = 1 then
        -- lines 265-274: notify the survivor and return them to waiting
        let gs2 := gs1.map (fun g =>
          if g.status ≠ Status.gameOver then { g with status := Status.gameOver } else g)
        let evs := [ServerEvent.opponentDisconnected "Opponent disconnected. Game ended."] ++
          (match gs2 with
           | none => []
           | some g => [ServerEvent.message "Play again not possible with previous opponent.",
                        ServerEvent.gameStateUpdate g]) ++
          [ServerEvent.waitingForOpponent]
        ({ s with
            room := { players := players1, gameState := gs2, gameLoopIntervalId := intv1,
                      playAgainRequests := [] }
            activeTimers := timers1 }, evs)
      else if players1.length = 0 then
        -- lines 275-279: close the empty room
        ({ room := { players := players1, gameState := gs1,
                     gameLoopIntervalId := none, playAgainRequests := reqs1 }
           activeTimers := clearTimer timers1 intv1
           nextTimer := s.nextTimer
           closed := true }, [])
      else
        ({ s with
            room := { players := players1, gameState := gs1, gameLoopIntervalId := intv1,
                      playAgainRequests := reqs1 }
            activeTimers := timers1 }, [])

/-- The join half of the connection handler (server.ts lines 163-185): a
new participant is seated in this room only when it currently has exactly
one player; the newcomer gets the complementary seat and the game starts. -/
def joinHandler (s : SessionS) (sid : String) (ir : IRand) : SessionS × List ServerEvent :=
  if s.closed then (s, [])
  else if s.room.players.length = 1 ∧ findPlayer s.room.players sid = none then
    match s.room.players with
    | [existing] =>
      let newNumber := if existing.playerNumber = 1 then 2 else 1
      let players1 := sortPlayers (s.room.players ++ [{ id := sid, playerNumber := newNumber }])
      let s1 := { s with room := { s.room with players := players1 } }
      let assigns := players1.map (fun p => ServerEvent.playerAssignment p.playerNumber)
      let r := startGame s1 ir
      (r.1, assigns ++ [ServerEvent.message "Opponent found! Game is starting..."] ++ r.2)
    | _ => (s, [])
  else (s, [])

/-- The create-room half of the connection handler (server.ts lines
186-206): the session as it exists right after its first participant
creates it. -/
def initSession (sid : String) : SessionS :=
  { room := { players := [{ id := sid, playerNumber := 1 }], gameState := none,
              gameLoopIntervalId := none, playAgainRequests := [] }
    activeTimers := []
    nextTimer := 0
    closed := false }

/-- One externally visible event of a session. -/
inductive SEvent where
  | join (sid : String) (ir : IRand)
  | tick (r : SRand)
  | move (sid : String) (d : Dir)
  | rematch (sid : String) (ir : IRand)
  | disc (sid : String)
  deriving DecidableEq, Repr

def sessionStep (s : SessionS) : SEvent → SessionS × List ServerEvent
  | SEvent.join sid ir => joinHandler s sid ir
  | SEvent.tick r => updateGame s r
  | SEvent.move sid d => (paddleMoveHandler s sid d, [])
  | SEvent.rematch sid ir => requestPlayAgainHandler s sid ir
  | SEvent.disc sid => disconnectHandler s sid

/-- The session state after a list of events hits a freshly created room. -/
def runSession (sid : String) (evs : List SEvent) : SessionS :=
  evs.foldl (fun s e => (sessionStep s e).1) (initSession sid)

/-! ### Scenario A (spec §8): a concrete seat-1 paddle collision -/

/-- Scenario A game state: seat-1 paddle at (50,250) sized 10×100, ball at
(58,270) radius 10 velocity (-5,0), arena 800×600. The remaining fields are
at their initial values. -/
def scenarioA : GameState :=
  { player1Paddle := { x := 50, y := 250, width := 10, height := 100 }
    player2Paddle := { x := 740, y := 250, width := 10, height := 100 }
    ball := { x := 58, y := 270, radius := 10, speedX := -5, speedY := 0 }
    score := { player1 := 0, player2 := 0 }
    gameArea := { width := 800, height := 600 }
    status := Status.playing }

/-! ## Lemmas -/

/-- The clamp applied to the vertical speed after a paddle bounce keeps
its absolute value at or below the cap. -/
lemma abs_clampY_le (q : ℚ) :
    |if MAX_BALL_SPEED_Y < |q| then MAX_BALL_SPEED_Y * signQ q else q| ≤ MAX_BALL_SPEED_Y := by
  by_cases h : MAX_BALL_SPEED_Y < |q|
  · rw [if_pos h]
    have hq : q ≠ 0 := by
      intro h0
      rw [h0] at h
      norm_num [MAX_BALL_SPEED_Y] at h
    rcases lt_or_gt_of_ne hq with hneg | hpos
    · rw [signQ, if_neg (by linarith), if_pos hneg]
      norm_num [MAX_BALL_SPEED_Y]
    · rw [signQ, if_pos hpos]
      norm_num [MAX_BALL_SPEED_Y]
  · rw [if_neg h]
    exact le_of_not_lt h

/-- The vertical serve speed produced by `resetBall` from a magnitude draw
`m ∈ [0,1)` and a sign coin has absolute value in `[1,4]`. -/
lemma serve_band (m : ℚ) (b : Bool) (h0 : 0 ≤ m) (h1 : m < 1) :
    1 ≤ |(m * INITIAL_BALL_SPEED * (6 / 10) + INITIAL_BALL_SPEED * (2 / 10)) * coin b| ∧
    |(m * INITIAL_BALL_SPEED * (6 / 10) + INITIAL_BALL_SPEED * (2 / 10)) * coin b| ≤ 4 := by
  have he : m * INITIAL_BALL_SPEED * (6 / 10) + INITIAL_BALL_SPEED * (2 / 10) = 3 * m + 1 := by
    rw [INITIAL_BALL_SPEED]; ring
  have hc : |coin b| = 1 := by cases b <;> simp [coin]
  rw [he, abs_mul, hc, mul_one, abs_of_nonneg (by linarith)]
  constructor <;> linarith

/-- The physics pipeline never changes the status, the paddles, the
arena, or (before the scoring step) the score: it only moves the ball.
Packaged for each step. -/
lemma integrateBall_frame (gs : GameState) :
    (integrateBall gs).status = gs.status ∧
    (integrateBall gs).player1Paddle = gs.player1Paddle ∧
    (integrateBall gs).player2Paddle = gs.player2Paddle ∧
    (integrateBall gs).score = gs.score ∧
    (integrateBall gs).gameArea = gs.gameArea :=
  ⟨rfl, rfl, rfl, rfl, rfl⟩

lemma collideP1_frame (gs : GameState) :
    (collideP1 gs).status = gs.status ∧
    (collideP1 gs).player1Paddle = gs.player1Paddle ∧
    (collideP1 gs).player2Paddle = gs.player2Paddle ∧
    (collideP1 gs).score = gs.score ∧
    (collideP1 gs).gameArea = gs.gameArea := by
  rw [collideP1]; split <;> exact ⟨rfl, rfl, rfl, rfl, rfl⟩

lemma collideP2_frame (gs : GameState) :
    (collideP2 gs).status = gs.status ∧
    (collideP2 gs).player1Paddle = gs.player1Paddle ∧
    (collideP2 gs).player2Paddle = gs.player2Paddle ∧
    (collideP2 gs).score = gs.score ∧
    (collideP2 gs).gameArea = gs.gameArea := by
  rw [collideP2]; split <;> exact ⟨rfl, rfl, rfl, rfl, rfl⟩

lemma wallBounce_frame (gs : GameState) :
    (wallBounce gs).status = gs.status ∧
    (wallBounce gs).player1Paddle = gs.player1Paddle ∧
    (wallBounce gs).player2Paddle = gs.player2Paddle ∧
    (wallBounce gs).score = gs.score ∧
    (wallBounce gs).gameArea = gs.gameArea := by
  rw [wallBounce]; split <;> exact ⟨rfl, rfl, rfl, rfl, rfl⟩

lemma scoringStep_frame (gs : GameState) (r : SRand) :
    ((scoringStep gs r).1).status = gs.status ∧
    ((scoringStep gs r).1).player1Paddle = gs.player1Paddle ∧
    ((scoringStep gs r).1).player2Paddle = gs.player2Paddle ∧
    ((scoringStep gs r).1).gameArea = gs.gameArea := by
  rw [scoringStep]
  split
  · exact ⟨rfl, rfl, rfl, rfl⟩
  · split <;> exact ⟨rfl, rfl, rfl, rfl⟩

lemma tickPhysics_frame (gs : GameState) (r : SRand) :
    ((tickPhysics gs r).1).status = gs.status ∧
    ((tickPhysics gs r).1).player1Paddle = gs.player1Paddle ∧
    ((tickPhysics gs r).1).player2Paddle = gs.player2Paddle ∧
    ((tickPhysics gs r).1).gameArea = gs.gameArea := by
  rw [tickPhysics]
  have h1 := integrateBall_frame gs
  have h2 := collideP1_frame (integrateBall gs)
  have h3 := collideP2_frame (collideP1 (integrateBall gs))
  have h4 := wallBounce_frame (collideP2 (collideP1 (integrateBall gs)))
  have h5 := scoringStep_frame (wallBounce (collideP2 (collideP1 (integrateBall gs)))) r
  refine ⟨?_, ?_, ?_, ?_⟩ <;>
    simp only [h1.1, h2.1, h3.1, h4.1, h5.1, h1.2.1, h2.2.1, h3.2.1, h4.2.1, h5.2.1,
      h1.2.2.1, h2.2.2.1, h3.2.2.1, h4.2.2.1, h5.2.2.1,
      h1.2.2.2.2, h2.2.2.2.2, h3.2.2.2.2, h4.2.2.2.2, h5.2.2.2]

/-! ## Claims -/

/-- C2: on Scenario A (arena 800×600, seat-1 paddle at (50,250) sized
10×100, ball at (58,270) radius 10 velocity (-5,0)), integrating and then
running the seat-1 paddle collision triggers the collision branch, the
unclamped bounce value is (270-300)·0.30 = -9, and the resulting ball has
speedX = 5, speedY = -7 (the clamp) and x = 70 (paddle right edge 60 plus
radius 10). -/
theorem scenarioA_tick_result :
    collideP1Guard (integrateBall scenarioA) = true ∧
    ((integrateBall scenarioA).ball.y -
        (scenarioA.player1Paddle.y + scenarioA.player1Paddle.height / 2)) *
      PADDLE_BOUNCE_ANGLE_FACTOR = -9 ∧
    (collideP1 (integrateBall scenarioA)).ball.speedX = 5 ∧
    (collideP1 (integrateBall scenarioA)).ball.speedY = -7 ∧
    (collideP1 (integrateBall scenarioA)).ball.x = 70 := by
  norm_num [collideP1, integrateBall, scenarioA, collideP1Guard, MAX_BALL_SPEED_Y,
    PADDLE_BOUNCE_ANGLE_FACTOR, signQ]

/-- C3: whenever the seat-1 or seat-2 paddle collision response fires,
the ball's vertical speed right after that response satisfies
|speedY| ≤ 7, wherever on the paddle the ball hit. -/
theorem collision_bounds_vertical_speed (gs : GameState) :
    (collideP1Guard gs = true → |(collideP1 gs).ball.speedY| ≤ 7) ∧
    (collideP2Guard gs = true → |(collideP2 gs).ball.speedY| ≤ 7) := by
  constructor
  · intro hg
    have h := abs_clampY_le
      ((gs.ball.y - (gs.player1Paddle.y + gs.player1Paddle.height / 2)) * PADDLE_BOUNCE_ANGLE_FACTOR)
    rw [collideP1, if_pos hg]
    simpa [MAX_BALL_SPEED_Y] using h
  · intro hg
    have h := abs_clampY_le
      ((gs.ball.y - (gs.player2Paddle.y + gs.player2Paddle.height / 2)) * PADDLE_BOUNCE_ANGLE_FACTOR)
    rw [collideP2, if_pos hg]
    simpa [MAX_BALL_SPEED_Y] using h

/-- C3 witness: the bound instantiated on Scenario A after integration
(seat-1 side) and on its mirror image (seat-2 side). -/
theorem collision_bounds_vertical_speed_witness :
    |(collideP1 (integrateBall scenarioA)).ball.speedY| ≤ 7 := by
  refine (collision_bounds_vertical_speed (integrateBall scenarioA)).1 ?_
  norm_num [collideP1Guard, integrateBall, scenarioA]

/-- C4: the scoring step. If the ball's right edge ended below `x = 0`,
exactly the seat-2 score increments, the ball returns to the arena center
(400,300) and is re-served with `speedX = 5` (toward the scorer's paddle)
and a vertical speed of absolute value in `[1,4]` for every draw of
`Math.random()`; symmetrically past the right edge for seat-1; and no
score changes otherwise. -/
theorem scoring_step_spec (gs : GameState) (r : SRand) (h0 : 0 ≤ r.mag) (h1 : r.mag < 1) :
    (gs.ball.x + gs.ball.radius < 0 →
      (scoringStep gs r).2 = true ∧
      (scoringStep gs r).1.score.player2 = gs.score.player2 + 1 ∧
      (scoringStep gs r).1.score.player1 = gs.score.player1 ∧
      (scoringStep gs r).1.ball.x = 400 ∧
      (scoringStep gs r).1.ball.y = 300 ∧
      (scoringStep gs r).1.ball.speedX = 5 ∧
      1 ≤ |(scoringStep gs r).1.ball.speedY| ∧
      |(scoringStep gs r).1.ball.speedY| ≤ 4) ∧
    (¬ gs.ball.x + gs.ball.radius < 0 → gs.gameArea.width < gs.ball.x - gs.ball.radius →
      (scoringStep gs r).2 = true ∧
      (scoringStep gs r).1.score.player1 = gs.score.player1 + 1 ∧
      (scoringStep gs r).1.score.player2 = gs.score.player2 ∧
      (scoringStep gs r).1.ball.x = 400 ∧
      (scoringStep gs r).1.ball.y = 300 ∧
      (scoringStep gs r).1.ball.speedX = -5 ∧
      1 ≤ |(scoringStep gs r).1.ball.speedY| ∧
      |(scoringStep gs r).1.ball.speedY| ≤ 4) ∧
    (¬ gs.ball.x + gs.ball.radius < 0 → ¬ gs.gameArea.width < gs.ball.x - gs.ball.radius →
      scoringStep gs r = (gs, false)) := by
  have hband := serve_band r.mag r.pos h0 h1
  refine ⟨fun h => ?_, fun h h2 => ?_, fun h h2 => ?_⟩
  · rw [scoringStep, if_pos h]
    refine ⟨rfl, rfl, rfl, by norm_num [resetBall, GAME_AREA_WIDTH],
      by norm_num [resetBall, GAME_AREA_HEIGHT], by norm_num [resetBall, INITIAL_BALL_SPEED],
      by simpa [resetBall] using hband.1, by simpa [resetBall] using hband.2⟩
  · rw [scoringStep, if_neg h, if_pos h2]
    refine ⟨rfl, rfl, rfl, by norm_num [resetBall, GAME_AREA_WIDTH],
      by norm_num [resetBall, GAME_AREA_HEIGHT], by norm_num [resetBall, INITIAL_BALL_SPEED],
      by simpa [resetBall] using hband.1, by simpa [resetBall] using hband.2⟩
  · rw [scoringStep, if_neg h, if_neg h2]

/-- C1: if a tick of `updateGame` runs on a `playing` state and the state
after the scoring step has a score at or above the winning threshold,
then the tick ends right there: the status flips to `gameOver`, exactly a
winner announcement (carrying the seat whose score reached the threshold
and the final score) followed by one final snapshot is emitted, and the
tick driver's handle is cancelled and dropped from the room. -/
theorem tick_game_over (s : SessionS) (gs : GameState) (r : SRand)
    (hgs : s.room.gameState = some gs) (hst : gs.status = Status.playing)
    (hw : WINNING_SCORE ≤ ((tickPhysics gs r).1).score.player1 ∨
      WINNING_SCORE ≤ ((tickPhysics gs r).1).score.player2) :
    updateGame s r =
      ({ s with
          room := { s.room with
            gameState := some { (tickPhysics gs r).1 with status := Status.gameOver }
            gameLoopIntervalId := none }
          activeTimers := clearTimer s.activeTimers s.room.gameLoopIntervalId },
       [ServerEvent.gameOverEv
          (if WINNING_SCORE ≤ ((tickPhysics gs r).1).score.player1 then 1 else 2)
          ((tickPhysics gs r).1).score,
        ServerEvent.gameStateUpdate { (tickPhysics gs r).1 with status := Status.gameOver }]) ∧
    ((if WINNING_SCORE ≤ ((tickPhysics gs r).1).score.player1 then (1:ℕ) else 2) = 1 →
      WINNING_SCORE ≤ ((tickPhysics gs r).1).score.player1) ∧
    ((if WINNING_SCORE ≤ ((tickPhysics gs r).1).score.player1 then (1:ℕ) else 2) = 2 →
      WINNING_SCORE ≤ ((tickPhysics gs r).1).score.player2) := by
  have hsts : ((tickPhysics gs r).1).status = Status.playing := by
    rw [(tickPhysics_frame gs r).1, hst]
  have hc1 : ¬(gs.status ≠ Status.playing ∧ gs.status ≠ Status.paused) := by
    rw [hst]; simp
  have hc2 : ¬(gs.status = Status.paused) := by
    rw [hst]; decide
  refine ⟨?_, ?_, ?_⟩
  · simp only [updateGame, hgs, if_neg hc1, if_neg hc2, if_pos (And.intro hsts hw)]
  · intro h1
    by_contra hn
    rw [if_neg hn] at h1
    exact absurd h1 (by decide)
  · intro h2
    by_cases hp : WINNING_SCORE ≤ ((tickPhysics gs r).1).score.player1
    · rw [if_pos hp] at h2
      exact absurd h2 (by decide)
    · exact hw.resolve_left hp

/-- Scenario B pre-tick state: score 4-4, the ball just left of the goal
line at (-6,300) moving left at speed 5, so that after integration its
right edge is below `x = 0`. -/
def scenarioB : GameState :=
  { scenarioA with
    ball := { x := -6, y := 300, radius := 10, speedX := -5, speedY := 0 }
    score := { player1 := 4, player2 := 4 } }

/-- A session in mid-game holding `scenarioB`: two seated players and an
active tick driver with handle 0. -/
def scenarioBSession : SessionS :=
  { room := { players := [{ id := "alice", playerNumber := 1 }, { id := "bob", playerNumber := 2 }]
              gameState := some scenarioB
              gameLoopIntervalId := some 0
              playAgainRequests := [] }
    activeTimers := [0]
    nextTimer := 1
    closed := false }

/-- C1 witness (Scenario B): the tick on `scenarioBSession` announces
winner seat 2 with score {4,5}, cancels the driver and emits the final
snapshot. -/
theorem tick_game_over_witness :
    (updateGame scenarioBSession { mag := 0, pos := true }).1.room.gameLoopIntervalId = none ∧
    (updateGame scenarioBSession { mag := 0, pos := true }).1.activeTimers = [] ∧
    (updateGame scenarioBSession { mag := 0, pos := true }).2 =
      [ServerEvent.gameOverEv 2 { player1 := 4, player2 := 5 },
       ServerEvent.gameStateUpdate
         { (tickPhysics scenarioB { mag := 0, pos := true }).1 with status := Status.gameOver }] := by
  have hsc : ((tickPhysics scenarioB { mag := 0, pos := true }).1).score = { player1 := 4, player2 := 5 } := by
    norm_num [tickPhysics, scoringStep, wallBounce, collideP2, collideP1, integrateBall,
      collideP1Guard, collideP2Guard, resetBall, scenarioB, scenarioA, GAME_AREA_WIDTH,
      GAME_AREA_HEIGHT, INITIAL_BALL_SPEED, WINNING_SCORE]
  have h := tick_game_over scenarioBSession scenarioB { mag := 0, pos := true } rfl rfl
    (Or.inr (by rw [hsc]; decide))
  have hwin : (if WINNING_SCORE ≤ ((tickPhysics scenarioB { mag := 0, pos := true }).1).score.player1
      then (1:ℕ) else 2) = 2 := by
    rw [hsc]; decide
  rw [h.1]
  refine ⟨rfl, rfl, ?_⟩
  rw [hwin, hsc]

/-- A concrete state whose ball has fully crossed the left goal line:
Scenario A's arena and paddles, ball at (-11,300) radius 10. -/
def exitLeftState : GameState :=
  { scenarioA with
    ball := { x := -11, y := 300, radius := 10, speedX := -5, speedY := 0 }
    score := { player1 := 0, player2 := 0 } }

/-- C4 witness: the scoring step applied to `exitLeftState` with the
magnitude draw 0 and a positive sign coin. -/
theorem scoring_step_spec_witness :
    (scoringStep exitLeftState { mag := 0, pos := true }).1.score.player2 = 1 ∧
    (scoringStep exitLeftState { mag := 0, pos := true }).1.score.player1 = 0 ∧
    (scoringStep exitLeftState { mag := 0, pos := true }).1.ball.speedX = 5 := by
  have h := (scoring_step_spec exitLeftState { mag := 0, pos := true }
      (by norm_num) (by norm_num)).1 (by norm_num [exitLeftState])
  exact ⟨h.2.1, h.2.2.1, h.2.2.2.2.2.1⟩

/-- The paddle belonging to seat number `pn` (`playerNumber === 1 ?
player1Paddle : player2Paddle`). -/
def ownPaddle (gs : GameState) (pn : ℕ) : PaddleState :=
  if pn = 1 then gs.player1Paddle else gs.player2Paddle

/-- The pre-clamp paddle position after one directional step
(lines 242-243). -/
def moveY (p : PaddleState) : Dir → ℚ
  | Dir.up => p.y - PADDLE_SPEED
  | Dir.down => p.y + PADDLE_SPEED

/-- C6: a `paddleMove` is a no-op (the session is returned unchanged)
whenever the room is closed, the requester is not seated, there is no
game state, or the status is not `playing`; while `playing`, it moves the
requester's own paddle by the fixed step of 15 px (up decreases y, down
increases y) and clamps the result into `[0, arenaHeight - paddleHeight]`,
immediately within the same event. -/
theorem paddle_move_spec (s : SessionS) (sid : String) (d : Dir) :
    PADDLE_SPEED = 15 ∧
    (s.closed = true → paddleMoveHandler s sid d = s) ∧
    (findPlayer s.room.players sid = none → paddleMoveHandler s sid d = s) ∧
    (s.room.gameState = none → paddleMoveHandler s sid d = s) ∧
    (∀ gs, s.room.gameState = some gs → gs.status ≠ Status.playing →
      paddleMoveHandler s sid d = s) ∧
    (∀ gs pl, s.closed = false → findPlayer s.room.players sid = some pl →
      s.room.gameState = some gs → gs.status = Status.playing →
      (paddleMoveHandler s sid d).room.gameState.map (fun g => (ownPaddle g pl.playerNumber).y) =
        some (max 0 (min (moveY (ownPaddle gs pl.playerNumber) d)
          (GAME_AREA_HEIGHT - (ownPaddle gs pl.playerNumber).height)))) := by
  refine ⟨rfl, ?_, ?_, ?_, ?_, ?_⟩
  · intro h
    rw [paddleMoveHandler, if_pos h]
  · intro h
    rw [paddleMoveHandler]
    split
    · rfl
    · rw [h]
  · intro h
    rw [paddleMoveHandler]
    split
    · rfl
    · rw [h]
      cases hf : findPlayer s.room.players sid <;> simp
  · intro gs hgs hst
    rw [paddleMoveHandler]
    split
    · rfl
    · rw [hgs]
      cases hf : findPlayer s.room.players sid <;> simp [if_neg hst]
  · intro gs pl hcl hf hgs hst
    rw [paddleMoveHandler, if_neg (by rw [hcl]; decide)]
    rw [hf, hgs]
    simp only [if_pos hst]
    by_cases hpn : pl.playerNumber = 1 <;>
      simp [hpn, ownPaddle, moveY]

/-- C6 witness: on `scenarioBSession` (status `playing`), player 1's
`up` move lowers the seat-1 paddle from 250 to 235. -/
theorem paddle_move_spec_witness :
    (paddleMoveHandler scenarioBSession "alice" Dir.up).room.gameState.map
      (fun g => (ownPaddle g 1).y) = some 235 := by
  have h := (paddle_move_spec scenarioBSession "alice" Dir.up).2.2.2.2.2
    scenarioB { id := "alice", playerNumber := 1 } rfl rfl rfl rfl
  rw [h]
  norm_num [ownPaddle, moveY, scenarioB, scenarioA, GAME_AREA_HEIGHT, PADDLE_SPEED]

/-- C10: while `playing`, a `paddleMove` can change nothing but the
requesting participant's own paddle's y coordinate: the players, the
timers, the rematch requests, the opponent's paddle, both paddles'
x/width/height, the ball, the score, the arena and the status are all
returned unchanged. -/
theorem paddle_move_frame (s : SessionS) (sid : String) (d : Dir)
    (gs : GameState) (pl : Player) (hcl : s.closed = false)
    (hf : findPlayer s.room.players sid = some pl)
    (hgs : s.room.gameState = some gs) (hst : gs.status = Status.playing) :
    (paddleMoveHandler s sid d).room.players = s.room.players ∧
    (paddleMoveHandler s sid d).room.gameLoopIntervalId = s.room.gameLoopIntervalId ∧
    (paddleMoveHandler s sid d).room.playAgainRequests = s.room.playAgainRequests ∧
    (paddleMoveHandler s sid d).activeTimers = s.activeTimers ∧
    (paddleMoveHandler s sid d).nextTimer = s.nextTimer ∧
    (paddleMoveHandler s sid d).closed = s.closed ∧
    ∃ gs2, (paddleMoveHandler s sid d).room.gameState = some gs2 ∧
      gs2.ball = gs.ball ∧ gs2.score = gs.score ∧ gs2.gameArea = gs.gameArea ∧
      gs2.status = gs.status ∧
      (pl.playerNumber = 1 →
        gs2.player2Paddle = gs.player2Paddle ∧
        gs2.player1Paddle.x = gs.player1Paddle.x ∧
        gs2.player1Paddle.width = gs.player1Paddle.width ∧
        gs2.player1Paddle.height = gs.player1Paddle.height) ∧
      (pl.playerNumber ≠ 1 →
        gs2.player1Paddle = gs.player1Paddle ∧
        gs2.player2Paddle.x = gs.player2Paddle.x ∧
        gs2.player2Paddle.width = gs.player2Paddle.width ∧
        gs2.player2Paddle.height = gs.player2Paddle.height) := by
  rw [paddleMoveHandler, if_neg (by rw [hcl]; decide), hf, hgs]
  simp only [if_pos hst]
  by_cases hpn : pl.playerNumber = 1 <;> simp [hpn]

/-- C10 witness: the frame condition instantiated on `scenarioBSession`
with player 2 moving down. -/
theorem paddle_move_frame_witness :
    (paddleMoveHandler scenarioBSession "bob" Dir.down).room.players =
      scenarioBSession.room.players ∧
    (paddleMoveHandler scenarioBSession "bob" Dir.down).activeTimers =
      scenarioBSession.activeTimers := by
  have h := paddle_move_frame scenarioBSession "bob" Dir.down scenarioB
    { id := "bob", playerNumber := 2 } rfl rfl rfl rfl
  exact ⟨h.1, h.2.2.2.1⟩

/-! ## The session invariant

`Inv` collects what holds of every reachable session state: the list of
active timers is exactly the room's optional interval handle (hence at
most one tick driver is ever active), handles are always fresh, at most
two players with distinct ids are seated, the rematch-request set is a
duplicate-free subset of the seated ids, both paddles sit inside the
arena, and a `playing` game state always has an installed driver. -/

/-- The timers an optional interval handle accounts for. -/
def optTimer : Option ℕ → List ℕ
  | none => []
  | some h => [h]

/-- A paddle of the standard height whose position is inside
`[0, arenaHeight - paddleHeight]`. -/
def paddleOk (p : PaddleState) : Prop :=
  p.height = PADDLE_HEIGHT ∧ 0 ≤ p.y ∧ p.y ≤ GAME_AREA_HEIGHT - PADDLE_HEIGHT

def gsOk (gs : GameState) : Prop :=
  paddleOk gs.player1Paddle ∧ paddleOk gs.player2Paddle

structure Inv (s : SessionS) : Prop where
  timers : s.activeTimers = optTimer s.room.gameLoopIntervalId
  fresh : ∀ h ∈ s.activeTimers, h < s.nextTimer
  freshRoom : ∀ h, s.room.gameLoopIntervalId = some h → h < s.nextTimer
  twoSeats : s.room.players.length ≤ 2
  distinct : (s.room.players.map Player.id).Nodup
  reqSub : ∀ i ∈ s.room.playAgainRequests, i ∈ s.room.players.map Player.id
  reqNodup : s.room.playAgainRequests.Nodup
  paddles : ∀ gs, s.room.gameState = some gs → gsOk gs
  playingTimer : ∀ gs, s.room.gameState = some gs → gs.status = Status.playing →
    s.room.gameLoopIntervalId.isSome = true
  statusTimer : ∀ gs, s.room.gameState = some gs → gs.status ≠ Status.playing →
    s.room.gameLoopIntervalId = none
  noneTimer : s.room.gameState = none → s.room.gameLoopIntervalId = none

lemma clearTimer_optTimer (o : Option ℕ) : clearTimer (optTimer o) o = [] := by
  cases o with
  | none => rfl
  | some h => simp [clearTimer, optTimer]

lemma sortPlayers_perm (l : List Player) : (sortPlayers l).Perm l := by
  match l with
  | [] => exact List.Perm.refl _
  | [a] => exact List.Perm.refl _
  | [a, b] =>
    rw [sortPlayers]
    split
    · exact List.Perm.refl _
    · exact List.Perm.swap _ _ _
  | a :: b :: c :: rest => exact List.Perm.refl _

lemma initializeGameState_gsOk (ir : IRand) : gsOk (initializeGameState ir) := by
  refine ⟨⟨rfl, ?_, ?_⟩, ⟨rfl, ?_, ?_⟩⟩ <;>
    norm_num [initializeGameState, GAME_AREA_HEIGHT, PADDLE_HEIGHT]

lemma startGame_inv (s : SessionS) (ir : IRand) (h : Inv s) : Inv (startGame s ir).1 := by
  rw [startGame]
  split
  · exact h
  · refine ⟨?_, ?_, ?_, ?_, ?_, ?_, ?_, ?_, ?_, ?_, ?_⟩
    · simp only
      rw [h.timers, clearTimer_optTimer, optTimer]
    · intro t ht
      simp only at ht ⊢
      rw [h.timers, clearTimer_optTimer] at ht
      simp at ht
      omega
    · intro t ht
      simp only at ht ⊢
      injection ht with ht
      omega
    · simp only
      rw [(sortPlayers_perm s.room.players).length_eq]
      exact h.twoSeats
    · simp only
      exact ((sortPlayers_perm s.room.players).map Player.id).nodup_iff.mpr h.distinct
    · intro i hi
      simp at hi
    · simp
    · intro gs hgs
      simp only at hgs
      injection hgs with hgs
      rw [← hgs]
      exact initializeGameState_gsOk ir
    · intro gs _ _
      rfl
    · intro g hg hne
      simp only at hg
      injection hg with hg
      rw [← hg] at hne
      exact absurd rfl hne
    · intro h0
      simp at h0

lemma gsOk_congr {g1 g2 : GameState} (h1 : g2.player1Paddle = g1.player1Paddle)
    (h2 : g2.player2Paddle = g1.player2Paddle) (h : gsOk g1) : gsOk g2 := by
  rw [gsOk, h1, h2]
  exact h

lemma updateGame_inv (s : SessionS) (r : SRand) (h : Inv s) : Inv (updateGame s r).1 := by
  cases hgs : s.room.gameState with
  | none =>
    simp only [updateGame, hgs]
    exact h
  | some gs =>
    simp only [updateGame, hgs]
    split
    · exact h
    · split
      · exact h
      · split
        · -- game-over branch: driver cancelled, status flipped
          refine ⟨?_, ?_, ?_, h.twoSeats, h.distinct, h.reqSub, h.reqNodup, ?_, ?_, ?_, ?_⟩
          · show clearTimer s.activeTimers s.room.gameLoopIntervalId = optTimer none
            rw [h.timers, clearTimer_optTimer]
            rfl
          · intro t ht
            rw [show (({ s with
                room := { s.room with
                  gameState := some { (tickPhysics gs r).1 with status := Status.gameOver }
                  gameLoopIntervalId := none }
                activeTimers := clearTimer s.activeTimers s.room.gameLoopIntervalId } :
                  SessionS)).activeTimers =
                clearTimer s.activeTimers s.room.gameLoopIntervalId from rfl,
              h.timers, clearTimer_optTimer] at ht
            simp at ht
          · intro t ht
            simp at ht
          · intro g hg
            simp only [Option.some.injEq] at hg
            refine gsOk_congr ?_ ?_ (h.paddles gs hgs)
            · rw [← hg]
              exact (tickPhysics_frame gs r).2.1
            · rw [← hg]
              exact (tickPhysics_frame gs r).2.2.1
          · intro g hg hstp
            simp only [Option.some.injEq] at hg
            rw [← hg] at hstp
            simp at hstp
          · intro g hg hne
            rfl
          · intro h0
            simp at h0
        · -- ordinary tick: only ball and score move
          rename_i hc1 hc2 hc3
          have hpl : gs.status = Status.playing := by
            rcases not_and_or.mp hc1 with h1 | h2
            · exact not_not.mp h1
            · exact absurd (not_not.mp h2) hc2
          refine ⟨h.timers, h.fresh, h.freshRoom, h.twoSeats, h.distinct, h.reqSub,
            h.reqNodup, ?_, ?_, ?_, ?_⟩
          · intro g hg
            simp only [Option.some.injEq] at hg
            refine gsOk_congr ?_ ?_ (h.paddles gs hgs)
            · rw [← hg]
              exact (tickPhysics_frame gs r).2.1
            · rw [← hg]
              exact (tickPhysics_frame gs r).2.2.1
          · intro g hg hstp
            simp only [Option.some.injEq] at hg
            rw [← hg, (tickPhysics_frame gs r).1] at hstp
            exact h.playingTimer gs hgs hstp
          · intro g hg hne
            simp only [Option.some.injEq] at hg
            rw [← hg, (tickPhysics_frame gs r).1, hpl] at hne
            exact absurd rfl hne
          · intro h0
            simp at h0

lemma paddleMoveHandler_inv (s : SessionS) (sid : String) (d : Dir) (h : Inv s) :
    Inv (paddleMoveHandler s sid d) := by
  rw [paddleMoveHandler]
  split
  · exact h
  · cases hf : findPlayer s.room.players sid with
    | none => exact h
    | some pl =>
      cases hgs : s.room.gameState with
      | none => exact h
      | some gs =>
        simp only
        split
        · rename_i hsp
          have hok := h.paddles gs hgs
          refine ⟨h.timers, h.fresh, h.freshRoom, h.twoSeats, h.distinct, h.reqSub,
            h.reqNodup, ?_, ?_, ?_, ?_⟩
          · intro g hg
            simp only [Option.some.injEq] at hg
            rw [← hg]
            by_cases hpn : pl.playerNumber = 1
            · simp only [if_pos hpn]
              have hb : GAME_AREA_HEIGHT - gs.player1Paddle.height =
                  GAME_AREA_HEIGHT - PADDLE_HEIGHT := by rw [hok.1.1]
              exact ⟨⟨hok.1.1, le_max_left _ _,
                max_le (by norm_num [GAME_AREA_HEIGHT, PADDLE_HEIGHT])
                  ((min_le_right _ _).trans (le_of_eq hb))⟩, hok.2⟩
            · simp only [if_neg hpn]
              have hb : GAME_AREA_HEIGHT - gs.player2Paddle.height =
                  GAME_AREA_HEIGHT - PADDLE_HEIGHT := by rw [hok.2.1]
              exact ⟨hok.1, hok.2.1, le_max_left _ _,
                max_le (by norm_num [GAME_AREA_HEIGHT, PADDLE_HEIGHT])
                  ((min_le_right _ _).trans (le_of_eq hb))⟩
          · intro g hg hstp
            refine h.playingTimer gs hgs ?_
            simp only [Option.some.injEq] at hg
            rw [← hg] at hstp
            by_cases hpn : pl.playerNumber = 1
            · simp only [if_pos hpn] at hstp
              exact hstp
            · simp only [if_neg hpn] at hstp
              exact hstp
          · intro g hg hne
            exfalso
            apply hne
            simp only [Option.some.injEq] at hg
            rw [← hg]
            by_cases hpn : pl.playerNumber = 1
            · simp only [if_pos hpn]
              exact hsp
            · simp only [if_neg hpn]
              exact hsp
          · intro h0
            simp at h0
        · exact h

lemma findPlayer_eq_some {ps : List Player} {sid : String} {pl : Player}
    (h : findPlayer ps sid = some pl) : pl ∈ ps ∧ pl.id = sid := by
  rw [findPlayer] at h
  refine ⟨List.mem_of_find?_eq_some h, ?_⟩
  have := List.find?_some h
  simpa using this

lemma findPlayer_eq_none {ps : List Player} {sid : String}
    (h : findPlayer ps sid = none) : ∀ p ∈ ps, p.id ≠ sid := by
  intro p hp
  rw [findPlayer, List.find?_eq_none] at h
  simpa using h p hp

lemma requestPlayAgainHandler_inv (s : SessionS) (sid : String) (ir : IRand) (h : Inv s) :
    Inv (requestPlayAgainHandler s sid ir).1 := by
  rw [requestPlayAgainHandler]
  split
  · exact h
  · cases hf : findPlayer s.room.players sid with
    | none => exact h
    | some pl =>
      simp only
      split
      · exact h
      · cases hgs : s.room.gameState with
        | none => exact h
        | some gs =>
          simp only
          split
          · exact h
          · have hInv1 : Inv
                { room :=
                    { players := s.room.players
                      gameState := some gs
                      gameLoopIntervalId := s.room.gameLoopIntervalId
                      playAgainRequests := s.room.playAgainRequests.insert sid }
                  activeTimers := s.activeTimers
                  nextTimer := s.nextTimer
                  closed := s.closed } := by
              refine ⟨h.timers, h.fresh, h.freshRoom, h.twoSeats, h.distinct, ?_,
                List.Nodup.insert h.reqNodup, ?_, ?_, ?_, ?_⟩
              · intro i hi
                rcases List.mem_insert_iff.mp hi with hi | hi
                · rcases findPlayer_eq_some hf with ⟨hmem, hid⟩
                  rw [hi, ← hid]
                  exact List.mem_map_of_mem Player.id hmem
                · exact h.reqSub i hi
              · intro g hg
                injection hg with hg
                rw [← hg]
                exact h.paddles gs hgs
              · intro g hg hstp
                injection hg with hg
                rw [← hg] at hstp
                exact h.playingTimer gs hgs hstp
              · intro g hg hne
                injection hg with hg
                rw [← hg] at hne
                exact h.statusTimer gs hgs hne
              · intro h0
                simp at h0
            split
            · exact startGame_inv _ ir hInv1
            · exact hInv1

lemma joinHandler_inv (s : SessionS) (sid : String) (ir : IRand) (h : Inv s) :
    Inv (joinHandler s sid ir).1 := by
  rw [joinHandler]
  split
  · exact h
  · split
    · rename_i hguard
      split
      · rename_i existing hps
        refine startGame_inv _ ir ?_
        have hperm : sortPlayers (s.room.players ++
            [{ id := sid, playerNumber := if existing.playerNumber = 1 then 2 else 1 }]) |>.Perm
            (s.room.players ++
              [{ id := sid, playerNumber := if existing.playerNumber = 1 then 2 else 1 }]) :=
          sortPlayers_perm _
        have hne : existing.id ≠ sid := by
          refine findPlayer_eq_none hguard.2 existing ?_
          rw [hps]
          exact List.mem_singleton.mpr rfl
        refine ⟨h.timers, h.fresh, h.freshRoom, ?_, ?_, ?_, h.reqNodup, h.paddles,
          h.playingTimer, h.statusTimer, h.noneTimer⟩
        · show (sortPlayers _).length ≤ 2
          rw [hperm.length_eq, List.length_append, hguard.1]
          simp
        · show ((sortPlayers _).map Player.id).Nodup
          refine (hperm.map Player.id).nodup_iff.mpr ?_
          rw [List.map_append]
          rw [hps]
          simp [hne]
        · intro i hi
          show i ∈ (sortPlayers _).map Player.id
          have := h.reqSub i hi
          refine (hperm.map Player.id).mem_iff.mpr ?_
          rw [List.map_append]
          exact List.mem_append_left _ this
      · exact h
    · exact h

lemma clearTimer_subset (ts : List ℕ) (o : Option ℕ) : ∀ t ∈ clearTimer ts o, t ∈ ts := by
  intro t ht
  cases o with
  | none => exact ht
  | some x => exact (List.mem_filter.mp ht).1

lemma gsOk_setStatus (g : GameState) (st : Status) (hk : gsOk g) :
    gsOk { g with status := st } := ⟨hk.1, hk.2⟩

lemma disconnectHandler_inv (s : SessionS) (sid : String) (h : Inv s) :
    Inv (disconnectHandler s sid).1 := by
  rw [disconnectHandler]
  split
  · exact h
  · cases hf : findPlayer s.room.players sid with
    | none => exact h
    | some pl =>
      simp only
      have hsub : ∀ i ∈ s.room.playAgainRequests.filter (fun i => i ≠ sid),
          i ∈ (s.room.players.filter (fun p => p.id ≠ sid)).map Player.id := by
        intro i hi
        have hmem := List.mem_filter.mp hi
        have hiid : i ∈ s.room.players.map Player.id := h.reqSub i hmem.1
        have hne : i ≠ sid := by simpa using hmem.2
        rcases List.mem_map.mp hiid with ⟨p, hp, hpe⟩
        refine List.mem_map.mpr ⟨p, List.mem_filter.mpr ⟨hp, ?_⟩, hpe⟩
        simp [hpe, hne]
      have hnodupP : ((s.room.players.filter (fun p => p.id ≠ sid)).map Player.id).Nodup :=
        h.distinct.sublist ((s.room.players.filter_sublist).map Player.id)
      have hlenP : (s.room.players.filter (fun p => p.id ≠ sid)).length ≤ 2 :=
        le_trans (s.room.players.length_filter_le _) h.twoSeats
      have hnodupR : (s.room.playAgainRequests.filter (fun i => i ≠ sid)).Nodup :=
        h.reqNodup.sublist s.room.playAgainRequests.filter_sublist
      split
      · -- one player remains
        rename_i hlen1
        refine ⟨?_, ?_, ?_, hlenP, hnodupP, ?_, ?_, ?_, ?_, ?_, ?_⟩
        · dsimp only
          split_ifs with hd
          · rw [h.timers, clearTimer_optTimer]
            rfl
          · exact h.timers
        · dsimp only
          split_ifs with hd
          · intro t ht
            exact h.fresh t (clearTimer_subset _ _ t ht)
          · exact h.fresh
        · dsimp only
          split_ifs with hd
          · intro t ht
            simp at ht
          · exact h.freshRoom
        · intro i hi
          simp at hi
        · simp
        · intro g hg
          dsimp only at hg
          split_ifs at hg with hd
          · rcases Option.map_eq_some'.mp hg with ⟨g0, hg0, rfl⟩
            rcases Option.map_eq_some'.mp hg0 with ⟨g1, hg1, rfl⟩
            have hok := gsOk_setStatus g1 Status.gameOver (h.paddles g1 hg1)
            split_ifs with hc
            · exact gsOk_setStatus _ Status.gameOver hok
            · exact hok
          · rcases Option.map_eq_some'.mp hg with ⟨g0, hg0, rfl⟩
            have hok := h.paddles g0 hg0
            split_ifs with hc
            · exact gsOk_setStatus _ Status.gameOver hok
            · exact hok
        · intro g hg hstp
          dsimp only at hg
          exfalso
          split_ifs at hg with hd
          · rcases Option.map_eq_some'.mp hg with ⟨g0, hg0, rfl⟩
            rcases Option.map_eq_some'.mp hg0 with ⟨g1, hg1, rfl⟩
            revert hstp
            split_ifs with hc <;> simp
          · rcases Option.map_eq_some'.mp hg with ⟨g0, hg0, rfl⟩
            revert hstp
            split_ifs with hc
            · simp
            · intro hstp
              exact hc (by rw [hstp]; decide)
        · intro g hg hne
          dsimp only
          split_ifs with hd
          · rfl
          · exact Option.not_isSome_iff_eq_none.mp (fun hiso => hd ⟨hiso, by rw [hlen1]; omega⟩)
        · intro h0
          dsimp only
          split_ifs with hd
          · rfl
          · exact Option.not_isSome_iff_eq_none.mp (fun hiso => hd ⟨hiso, by rw [hlen1]; omega⟩)
      · split
        · -- the room empties and is closed
          rename_i hne1 hlen0
          refine ⟨?_, ?_, ?_, hlenP, hnodupP, hsub, hnodupR, ?_, ?_, ?_, ?_⟩
          · dsimp only
            split_ifs with hd
            · rw [h.timers, clearTimer_optTimer]
              rfl
            · rw [h.timers, clearTimer_optTimer]
              rfl
          · dsimp only
            split_ifs with hd
            · intro t ht
              exact h.fresh t (clearTimer_subset _ _ t (clearTimer_subset _ _ t ht))
            · intro t ht
              exact h.fresh t (clearTimer_subset _ _ t ht)
          · intro t ht
            simp at ht
          · intro g hg
            dsimp only at hg
            split_ifs at hg with hd
            · rcases Option.map_eq_some'.mp hg with ⟨g0, hg0, rfl⟩
              exact gsOk_setStatus _ Status.gameOver (h.paddles g0 hg0)
            · exact h.paddles g hg
          · intro g hg hstp
            dsimp only at hg
            exfalso
            split_ifs at hg with hd
            · rcases Option.map_eq_some'.mp hg with ⟨g0, hg0, rfl⟩
              simp at hstp
            · have hiso := h.playingTimer g hg hstp
              exact hd ⟨hiso, by omega⟩
          · intro g hg hne
            rfl
          · intro h0
            rfl
        · -- more than one player would remain (unreachable with two seats)
          rename_i hne1 hne0
          refine ⟨?_, ?_, ?_, hlenP, hnodupP, hsub, hnodupR, ?_, ?_, ?_, ?_⟩
          · dsimp only
            split_ifs with hd
            · omega
            · exact h.timers
          · dsimp only
            split_ifs with hd
            · omega
            · exact h.fresh
          · dsimp only
            split_ifs with hd
            · omega
            · exact h.freshRoom
          · intro g hg
            dsimp only at hg
            split_ifs at hg with hd
            · omega
            · exact h.paddles g hg
          · intro g hg hstp
            dsimp only at hg ⊢
            split_ifs with hd
            · exact absurd hd.2 (by omega)
            · rw [if_neg hd] at hg
              exact h.playingTimer g hg hstp
          · intro g hg hne
            dsimp only at hg ⊢
            split_ifs with hd
            · exact absurd hd.2 (by omega)
            · rw [if_neg hd] at hg
              exact h.statusTimer g hg hne
          · intro h0
            dsimp only at h0 ⊢
            split_ifs with hd
            · exact absurd hd.2 (by omega)
            · rw [if_neg hd] at h0
              exact h.noneTimer h0

lemma sessionStep_inv (s : SessionS) (e : SEvent) (h : Inv s) : Inv (sessionStep s e).1 := by
  cases e with
  | join sid ir => exact joinHandler_inv s sid ir h
  | tick r => exact updateGame_inv s r h
  | move sid d => exact paddleMoveHandler_inv s sid d h
  | rematch sid ir => exact requestPlayAgainHandler_inv s sid ir h
  | disc sid => exact disconnectHandler_inv s sid h

lemma initSession_inv (sid : String) : Inv (initSession sid) := by
  refine ⟨rfl, ?_, ?_, ?_, ?_, ?_, ?_, ?_, ?_, ?_, ?_⟩
  · intro t ht
    simp [initSession] at ht
  · intro t ht
    simp [initSession] at ht
  · simp [initSession]
  · simp [initSession]
  · intro i hi
    simp [initSession] at hi
  · simp [initSession]
  · intro g hg
    simp [initSession] at hg
  · intro g hg
    simp [initSession] at hg
  · intro g hg
    simp [initSession] at hg
  · intro _
    rfl

lemma foldl_inv (evs : List SEvent) :
    ∀ s : SessionS, Inv s → Inv (evs.foldl (fun s e => (sessionStep s e).1) s) := by
  induction evs with
  | nil => exact fun s h => h
  | cons e rest ih =>
    intro s h
    exact ih _ (sessionStep_inv s e h)

/-- Every state reachable by a list of session events from a freshly
created room satisfies the session invariant. -/
lemma runSession_inv (sid : String) (evs : List SEvent) : Inv (runSession sid evs) :=
  foldl_inv evs (initSession sid) (initSession_inv sid)

/-- C7: in every reachable session state there is at most one active tick
driver; the set of active timers is exactly what the room's optional
interval handle accounts for (so a handle is held iff its timer is
live), whenever the game status is `playing` a driver is installed, and
in every state outside `playing` — after a score game over, a disconnect,
or room destruction — no handle remains, so each transition out of
`playing` cancelled its driver and a new `playing` period replaces
(cancels) any earlier handle before installing its own. -/
theorem single_tick_driver (sid : String) (evs : List SEvent) :
    (runSession sid evs).activeTimers.length ≤ 1 ∧
    (∀ t, (runSession sid evs).room.gameLoopIntervalId = some t ↔
      t ∈ (runSession sid evs).activeTimers) ∧
    (∀ gs, (runSession sid evs).room.gameState = some gs → gs.status = Status.playing →
      (runSession sid evs).room.gameLoopIntervalId.isSome = true) ∧
    (∀ gs, (runSession sid evs).room.gameState = some gs → gs.status ≠ Status.playing →
      (runSession sid evs).room.gameLoopIntervalId = none) ∧
    ((runSession sid evs).room.gameState = none →
      (runSession sid evs).room.gameLoopIntervalId = none) := by
  have h := runSession_inv sid evs
  refine ⟨?_, ?_, h.playingTimer, h.statusTimer, h.noneTimer⟩
  · rw [h.timers]
    cases (runSession sid evs).room.gameLoopIntervalId <;> simp [optTimer]
  · intro t
    rw [h.timers]
    cases ho : (runSession sid evs).room.gameLoopIntervalId with
    | none => simp [optTimer]
    | some x => simp [optTimer, eq_comm]

/-- C7 witness: after a join (which installs driver 0) the room holds
exactly that one timer handle. -/
theorem single_tick_driver_witness :
    (runSession "a" [SEvent.join "b" { sx := true, sy := true }]).activeTimers.length ≤ 1 ∧
    ((runSession "a" [SEvent.join "b" { sx := true, sy := true }]).room.gameLoopIntervalId =
        some 0 ↔
      0 ∈ (runSession "a" [SEvent.join "b" { sx := true, sy := true }]).activeTimers) := by
  have h := single_tick_driver "a" [SEvent.join "b" { sx := true, sy := true }]
  exact ⟨h.1, h.2.1 0⟩

/-- C5: starting from the freshly initialized game state created when a
second participant joins, after any interleaving of paddle moves and
ticks both paddles' y coordinates stay within
`[0, arenaHeight - paddleHeight]` — that is, within `[0, 500]` — the
initial position included. -/
theorem paddles_always_in_range (sid1 sid2 : String) (ir : IRand) (evs : List SEvent) :
    ∀ gs, (runSession sid1 (SEvent.join sid2 ir :: evs)).room.gameState = some gs →
      (0 ≤ gs.player1Paddle.y ∧ gs.player1Paddle.y ≤ GAME_AREA_HEIGHT - PADDLE_HEIGHT) ∧
      (0 ≤ gs.player2Paddle.y ∧ gs.player2Paddle.y ≤ GAME_AREA_HEIGHT - PADDLE_HEIGHT) ∧
      GAME_AREA_HEIGHT - PADDLE_HEIGHT = 500 := by
  intro gs hgs
  have h := runSession_inv sid1 (SEvent.join sid2 ir :: evs)
  have hok := h.paddles gs hgs
  exact ⟨⟨hok.1.2.1, hok.1.2.2⟩, ⟨hok.2.2.1, hok.2.2.2⟩,
    by norm_num [GAME_AREA_HEIGHT, PADDLE_HEIGHT]⟩

/-- C5 witness: the fresh game state created by the join places the
seat-1 paddle at y = 250, inside the range. -/
theorem paddles_always_in_range_witness :
    0 ≤ ({ initializeGameState { sx := true, sy := true } with
      status := Status.playing } : GameState).player1Paddle.y := by
  have h := paddles_always_in_range "a" "b" { sx := true, sy := true } []
    { initializeGameState { sx := true, sy := true } with status := Status.playing }
  refine (h ?_).1.1
  rfl

/-- Under the session invariant, with two seated players, the rematch
request set (after adding the requester) has JS-`Set` size 2 exactly when
both seated participants' ids are in it. -/
lemma insert_len_two_iff (s : SessionS) (sid : String) (pl : Player)
    (hinv : Inv s) (hf : findPlayer s.room.players sid = some pl)
    (hlen : s.room.players.length = 2) :
    ((s.room.playAgainRequests.insert sid).length = 2 ↔
      ∀ p ∈ s.room.players, p.id ∈ s.room.playAgainRequests.insert sid) := by
  have hRnodup : (s.room.playAgainRequests.insert sid).Nodup :=
    List.Nodup.insert hinv.reqNodup
  have hRsub : s.room.playAgainRequests.insert sid ⊆ s.room.players.map Player.id := by
    intro i hi
    rcases List.mem_insert_iff.mp hi with hi | hi
    · rcases findPlayer_eq_some hf with ⟨hmem, hid⟩
      rw [hi, ← hid]
      exact List.mem_map_of_mem Player.id hmem
    · exact hinv.reqSub i hi
  have hidlen : (s.room.players.map Player.id).length = 2 := by
    rw [List.length_map]
    exact hlen
  have hRsp : List.Subperm (s.room.playAgainRequests.insert sid) (s.room.players.map Player.id) :=
    hRnodup.subperm hRsub
  constructor
  · intro h2 p hp
    have hperm : (s.room.playAgainRequests.insert sid).Perm (s.room.players.map Player.id) := by
      refine hRsp.perm_of_length_le ?_
      rw [hidlen, h2]
    exact hperm.mem_iff.mpr (List.mem_map_of_mem Player.id hp)
  · intro hall
    have hidsub : s.room.players.map Player.id ⊆ s.room.playAgainRequests.insert sid := by
      intro i hi
      rcases List.mem_map.mp hi with ⟨p, hp, hpe⟩
      rw [← hpe]
      exact hall p hp
    have h1 : List.Subperm (s.room.players.map Player.id) (s.room.playAgainRequests.insert sid) :=
      hinv.distinct.subperm hidsub
    have hle1 := h1.length_le
    have hle2 := hRsp.length_le
    omega

/-- C8: the rematch handshake. A request outside a `gameOver` room with
two seated players (or one whose game did not end by score) draws only an
advisory notice and changes nothing. In a score-caused `gameOver`, the
session restarts — a wholesale fresh game state, a newly installed tick
driver, and a cleared request set — exactly when, after the requester is
recorded, both seated participants' ids are in the request set;
otherwise only the request set grows and the game state, driver and
timers are untouched. -/
theorem rematch_handshake (s : SessionS) (sid : String) (ir : IRand) (pl : Player)
    (hinv : Inv s) (hcl : s.closed = false)
    (hf : findPlayer s.room.players sid = some pl) :
    (s.room.players.length ≠ 2 ∨ s.room.gameState = none ∨
        Option.map GameState.status s.room.gameState ≠ some Status.gameOver →
      requestPlayAgainHandler s sid ir =
        (s, [ServerEvent.message "Cannot request play again now."])) ∧
    (∀ gs, s.room.gameState = some gs → s.room.players.length = 2 →
      gs.status = Status.gameOver →
      ¬(WINNING_SCORE ≤ gs.score.player1 ∨ WINNING_SCORE ≤ gs.score.player2) →
      requestPlayAgainHandler s sid ir =
        (s, [ServerEvent.message "Game did not end by score. Cannot play again."])) ∧
    (∀ gs, s.room.gameState = some gs → s.room.players.length = 2 →
      gs.status = Status.gameOver →
      (WINNING_SCORE ≤ gs.score.player1 ∨ WINNING_SCORE ≤ gs.score.player2) →
      ((∀ p ∈ s.room.players, p.id ∈ s.room.playAgainRequests.insert sid) →
        (requestPlayAgainHandler s sid ir).1.room.gameState =
          some { initializeGameState ir with status := Status.playing } ∧
        (requestPlayAgainHandler s sid ir).1.room.gameLoopIntervalId = some s.nextTimer ∧
        (requestPlayAgainHandler s sid ir).1.room.playAgainRequests = []) ∧
      (¬(∀ p ∈ s.room.players, p.id ∈ s.room.playAgainRequests.insert sid) →
        (requestPlayAgainHandler s sid ir).1 =
          { s with room :=
            { s.room with playAgainRequests := s.room.playAgainRequests.insert sid } })) := by
  have hcl' : ¬(s.closed = true) := by
    rw [hcl]
    simp
  refine ⟨?_, ?_, ?_⟩
  · intro hbad
    rw [requestPlayAgainHandler, if_neg hcl', hf]
    simp only
    rw [if_pos hbad]
  · intro gs hgs hlen hst hnot
    have hguard : ¬(s.room.players.length ≠ 2 ∨ s.room.gameState = none ∨
        Option.map GameState.status s.room.gameState ≠ some Status.gameOver) := by
      simp [hlen, hgs, hst]
    rw [requestPlayAgainHandler, if_neg hcl', hf]
    simp only
    rw [if_neg hguard, hgs]
    simp only
    rw [if_pos hnot]
  · intro gs hgs hlen hst hscore
    have hguard : ¬(s.room.players.length ≠ 2 ∨ s.room.gameState = none ∨
        Option.map GameState.status s.room.gameState ≠ some Status.gameOver) := by
      simp [hlen, hgs, hst]
    constructor
    · intro hall
      have h2 := (insert_len_two_iff s sid pl hinv hf hlen).mpr hall
      rw [requestPlayAgainHandler, if_neg hcl', hf]
      simp only
      rw [if_neg hguard, hgs]
      simp only
      rw [if_neg (not_not_intro hscore), if_pos h2, startGame]
      rw [if_neg (not_ne_iff.mpr hlen)]
      exact ⟨rfl, rfl, rfl⟩
    · intro hnall
      have h2 : ¬((s.room.playAgainRequests.insert sid).length = 2) := fun hx =>
        hnall ((insert_len_two_iff s sid pl hinv hf hlen).mp hx)
      rw [requestPlayAgainHandler, if_neg hcl', hf]
      simp only
      rw [if_neg hguard, hgs]
      simp only
      rw [if_neg (not_not_intro hscore), if_neg h2]

/-- A score-finished game: Scenario A's geometry with final score 5-3 and
status `gameOver`. -/
def gameOverScoreState : GameState :=
  { scenarioA with status := Status.gameOver, score := { player1 := 5, player2 := 3 } }

/-- A two-player room sitting in a score-caused `gameOver`, with one
pending rematch request from "bob". -/
def gameOverSession : SessionS :=
  { room := { players := [{ id := "alice", playerNumber := 1 }, { id := "bob", playerNumber := 2 }]
              gameState := some gameOverScoreState
              gameLoopIntervalId := none
              playAgainRequests := ["bob"] }
    activeTimers := []
    nextTimer := 5
    closed := false }

lemma gameOverSession_inv : Inv gameOverSession := by
  refine ⟨rfl, ?_, ?_, ?_, ?_, ?_, ?_, ?_, ?_, ?_, ?_⟩
  · intro t ht
    simp [gameOverSession] at ht
  · intro t ht
    simp [gameOverSession] at ht
  · simp [gameOverSession]
  · simp [gameOverSession]
  · intro i hi
    simp [gameOverSession] at hi
    simp [gameOverSession, hi]
  · simp [gameOverSession]
  · intro g hg
    simp [gameOverSession] at hg
    rw [← hg]
    refine ⟨⟨rfl, ?_, ?_⟩, ⟨rfl, ?_, ?_⟩⟩ <;>
      norm_num [gameOverScoreState, scenarioA, GAME_AREA_HEIGHT, PADDLE_HEIGHT]
  · intro g hg hstp
    simp [gameOverSession] at hg
    rw [← hg] at hstp
    simp [gameOverScoreState, scenarioA] at hstp
  · intro g hg hne
    rfl
  · intro h0
    rfl

/-- C8 witness: "bob" already asked; "alice"'s request in the
score-caused `gameOver` restarts the session with a cleared request set
and the freshly installed driver handle 5. -/
theorem rematch_handshake_witness :
    (requestPlayAgainHandler gameOverSession "alice" { sx := true, sy := true }).1.room.playAgainRequests = [] ∧
    (requestPlayAgainHandler gameOverSession "alice" { sx := true, sy := true }).1.room.gameLoopIntervalId = some 5 ∧
    (requestPlayAgainHandler gameOverSession "alice" { sx := true, sy := true }).1.room.gameState =
      some { initializeGameState { sx := true, sy := true } with status := Status.playing } := by
  have h := ((rematch_handshake gameOverSession "alice" { sx := true, sy := true }
      { id := "alice", playerNumber := 1 } gameOverSession_inv rfl rfl).2.2
      gameOverScoreState rfl rfl rfl (Or.inl (by decide))).1 (by decide)
  exact ⟨h.2.2, h.2.1, h.1⟩

/-- C9: a disconnect while the session is `playing` with two seated
participants cancels the tick driver, flips the status to `gameOver`,
discards every pending rematch request, notifies the survivor
(`opponentDisconnected`) and returns them to the waiting-for-opponent
condition in the same (reused) session slot; this `gameOver` is not
rematch-eligible — a follow-up request only draws an advisory notice —
and once the survivor also leaves, the session is destroyed. -/
theorem disconnect_ends_game (s : SessionS) (a b : Player) (gs : GameState) (t : ℕ)
    (hinv : Inv s) (hcl : s.closed = false)
    (hps : s.room.players = [a, b] ∨ s.room.players = [b, a])
    (hne : a.id ≠ b.id)
    (hgs : s.room.gameState = some gs) (hst : gs.status = Status.playing)
    (hiv : s.room.gameLoopIntervalId = some t) :
    (disconnectHandler s a.id).1.room.gameLoopIntervalId = none ∧
    (disconnectHandler s a.id).1.activeTimers = [] ∧
    (disconnectHandler s a.id).1.room.gameState = some { gs with status := Status.gameOver } ∧
    (disconnectHandler s a.id).1.room.playAgainRequests = [] ∧
    (disconnectHandler s a.id).1.room.players = [b] ∧
    (disconnectHandler s a.id).1.closed = false ∧
    ServerEvent.opponentDisconnected "Opponent disconnected. Game ended."
      ∈ (disconnectHandler s a.id).2 ∧
    ServerEvent.waitingForOpponent ∈ (disconnectHandler s a.id).2 ∧
    ServerEvent.message "Play again not possible with previous opponent."
      ∈ (disconnectHandler s a.id).2 ∧
    (∀ ir, requestPlayAgainHandler (disconnectHandler s a.id).1 b.id ir =
      ((disconnectHandler s a.id).1,
        [ServerEvent.message "Cannot request play again now."])) ∧
    (disconnectHandler (disconnectHandler s a.id).1 b.id).1.closed = true ∧
    (disconnectHandler (disconnectHandler s a.id).1 b.id).1.room.players = [] := by
  have hcl' : ¬(s.closed = true) := by
    rw [hcl]
    simp
  have hfa : findPlayer s.room.players a.id = some a := by
    rcases hps with hps | hps <;> rw [hps] <;> simp [findPlayer, Ne.symm hne]
  have hfilter : s.room.players.filter (fun p => p.id ≠ a.id) = [b] := by
    rcases hps with hps | hps <;> rw [hps] <;> simp [Ne.symm hne]
  have key : (disconnectHandler s a.id).1 =
      { room := { players := [b]
                  gameState := some { gs with status := Status.gameOver }
                  gameLoopIntervalId := none
                  playAgainRequests := [] }
        activeTimers := []
        nextTimer := s.nextTimer
        closed := false } ∧
      ServerEvent.opponentDisconnected "Opponent disconnected. Game ended."
        ∈ (disconnectHandler s a.id).2 ∧
      ServerEvent.waitingForOpponent ∈ (disconnectHandler s a.id).2 ∧
      ServerEvent.message "Play again not possible with previous opponent."
        ∈ (disconnectHandler s a.id).2 := by
    rw [disconnectHandler, if_neg hcl', hfa]
    simp only [hfilter, hgs, hiv]
    have hdrop : (some t : Option ℕ).isSome = true ∧ ([b] : List Player).length < 2 := by
      simp
    rw [if_pos (by simp)]
    simp only [if_pos hdrop]
    refine ⟨?_, by simp, by simp, by simp⟩
    rw [hinv.timers, hiv, clearTimer_optTimer]
    simp [hst, hcl]
  refine ⟨?_, ?_, ?_, ?_, ?_, ?_, key.2.1, key.2.2.1, key.2.2.2, ?_, ?_, ?_⟩
  · rw [key.1]
  · rw [key.1]
  · rw [key.1]
  · rw [key.1]
  · rw [key.1]
  · rw [key.1]
  · intro ir
    rw [key.1, requestPlayAgainHandler]
    simp [findPlayer]
  · rw [key.1, disconnectHandler]
    simp [findPlayer]
  · rw [key.1, disconnectHandler]
    simp [findPlayer]

lemma scenarioBSession_inv : Inv scenarioBSession := by
  refine ⟨rfl, ?_, ?_, ?_, ?_, ?_, ?_, ?_, ?_, ?_, ?_⟩
  · intro t ht
    simp [scenarioBSession] at ht
    simp [ht, scenarioBSession]
  · intro t ht
    simp [scenarioBSession] at ht
    simp [ht, scenarioBSession]
  · simp [scenarioBSession]
  · simp [scenarioBSession]
  · intro i hi
    simp [scenarioBSession] at hi
  · simp [scenarioBSession]
  · intro g hg
    simp [scenarioBSession] at hg
    rw [← hg]
    refine ⟨⟨rfl, ?_, ?_⟩, ⟨rfl, ?_, ?_⟩⟩ <;>
      norm_num [scenarioB, scenarioA, GAME_AREA_HEIGHT, PADDLE_HEIGHT]
  · intro g hg hstp
    simp [scenarioBSession]
  · intro g hg hne
    exfalso
    apply hne
    simp [scenarioBSession] at hg
    rw [← hg]
    rfl
  · intro h0
    simp [scenarioBSession] at h0

/-- C9 witness: "alice" disconnecting from the mid-game
`scenarioBSession` cancels the driver, leaves "bob" alone in the room,
and the session closes once "bob" leaves too. -/
theorem disconnect_ends_game_witness :
    (disconnectHandler scenarioBSession "alice").1.room.gameLoopIntervalId = none ∧
    (disconnectHandler scenarioBSession "alice").1.room.players =
      [{ id := "bob", playerNumber := 2 }] ∧
    (disconnectHandler (disconnectHandler scenarioBSession "alice").1 "bob").1.closed = true := by
  have h := disconnect_ends_game scenarioBSession { id := "alice", playerNumber := 1 }
    { id := "bob", playerNumber := 2 } scenarioB 0
    scenarioBSession_inv rfl (Or.inl rfl) (by decide) rfl rfl rfl
  exact ⟨h.1, h.2.2.2.2.1, h.2.2.2.2.2.2.2.2.2.2.1⟩

end Pong
